import Mathlib

/-!
Shallow embedding of the `stm32wb-hci` vendor command/event codec
(`src/vendor/command/gap.rs` and `src/vendor/event/response.rs`).

Byte buffers are `List Nat` whose entries are meant to be bytes (< 256).
Machine-integer casts from the Rust source (`as u8`, `as u16`, `as u32`) are
modelled with explicit `% 2^8`, `% 2^16`, `% 2^32`; wrapping (release-mode)
semantics are used where an intermediate machine addition or multiplication
can overflow.  A Rust slice-indexing panic is modelled by an `Option` result
being `none`.
-/

namespace WbHci

/-- Read a little-endian u16 from positions `i`, `i+1` (out-of-range reads as 0,
matching `LittleEndian::read_u16` on an in-bounds buffer; callers guard bounds). -/
def readU16 (bytes : List Nat) (i : Nat) : Nat :=
  bytes.getD i 0 + 256 * bytes.getD (i + 1) 0

/-- Read a little-endian u32 from positions `i..i+4`. -/
def readU32 (bytes : List Nat) (i : Nat) : Nat :=
  bytes.getD i 0 + 256 * bytes.getD (i + 1) 0 + 65536 * bytes.getD (i + 2) 0 +
    16777216 * bytes.getD (i + 3) 0

/-- Little-endian bytes of a u16 value (as written by `LittleEndian::write_u16`). -/
def u16le (v : Nat) : List Nat := [v % 256, v / 256 % 256]

/-- Little-endian bytes of a u32 value (as written by `LittleEndian::write_u32`). -/
def u32le (v : Nat) : List Nat :=
  [v % 256, v / 256 % 256, v / 65536 % 256, v / 16777216 % 256]

/-- Overwrite `vs.length` bytes of `buf` starting at index `i`
(the image of `buf[i..i+vs.len()].copy_from_slice(vs)`; callers guard bounds). -/
def writeSlice (buf : List Nat) (i : Nat) (vs : List Nat) : List Nat :=
  buf.take i ++ vs ++ buf.drop (i + vs.length)

/-- Embedding of `core::time::Duration`: whole seconds plus subsecond nanoseconds
(a well-formed value has `nanos < 10^9`). -/
structure Duration where
  secs : Nat
  nanos : Nat
deriving DecidableEq, Repr

/-- `Duration::subsec_millis`. -/
def Duration.subsec_millis (d : Duration) : Nat := d.nanos / 1000000

/-- `Duration::subsec_micros`. -/
def Duration.subsec_micros (d : Duration) : Nat := d.nanos / 1000

/-- The `>` comparison on `core::time::Duration` (lexicographic on seconds, nanos). -/
def Duration.gtb (a b : Duration) : Bool :=
  decide (b.secs < a.secs) || (decide (a.secs = b.secs) && decide (b.nanos < a.nanos))

/-- gap.rs `to_conn_interval_value`: `4 * millis / 5` in u32 arithmetic, cast to u16,
where `millis = (d.as_secs() * 1000) as u32 + d.subsec_millis()`. -/
def to_conn_interval_value (d : Duration) : Nat :=
  let millis := (d.secs * 1000 % 2 ^ 32 + d.subsec_millis) % 2 ^ 32
  4 * millis % 2 ^ 32 / 5 % 2 ^ 16

/-- gap.rs `to_connection_length_value`: `1600 * d.as_secs() as u32 + d.subsec_micros() / 625`
in u32 arithmetic, cast to u16. -/
def to_connection_length_value (d : Duration) : Nat :=
  (1600 * (d.secs % 2 ^ 32) % 2 ^ 32 + d.subsec_micros / 625) % 2 ^ 32 % 2 ^ 16

/-- Written from the claim/spec wording (for comparison with the source functions):
the truncated total number of milliseconds of a duration. -/
def total_milliseconds (d : Duration) : Nat := 1000 * d.secs + d.nanos / 1000000

/-- Written from the claim/spec wording: the connection-interval-style quantization
`4 x ms / 5`, cast to u16. -/
def spec_conn_interval_slots (d : Duration) : Nat :=
  4 * total_milliseconds d / 5 % 2 ^ 16

/-- Written from the claim/spec wording: the advertising-interval-style quantization
`1600 x s + us / 625`, cast to u16. -/
def spec_connection_length_slots (d : Duration) : Nat :=
  (1600 * d.secs + d.nanos / 1000 / 625) % 2 ^ 16

/-- Modelled from the spec: `crate::host::AdvertisingType` is not under `src/`.
Variants as referenced by gap.rs; discriminants follow the standard HCI encoding. -/
inductive AdvertisingType
  | ConnectableUndirected
  | ConnectableDirectedHighDutyCycle
  | ScannableUndirected
  | NonConnectableUndirected
  | ConnectableDirectedLowDutyCycle
deriving DecidableEq, Repr

def AdvertisingType.toU8 : AdvertisingType → Nat
  | .ConnectableUndirected => 0
  | .ConnectableDirectedHighDutyCycle => 1
  | .ScannableUndirected => 2
  | .NonConnectableUndirected => 3
  | .ConnectableDirectedLowDutyCycle => 4

/-- Modelled from the spec: `crate::host::OwnAddressType` is not under `src/`. -/
inductive OwnAddressType
  | Public
  | Random
  | PrivateFallbackPublic
  | PrivateFallbackRandom
deriving DecidableEq, Repr

def OwnAddressType.toU8 : OwnAddressType → Nat
  | .Public => 0
  | .Random => 1
  | .PrivateFallbackPublic => 2
  | .PrivateFallbackRandom => 3

/-- Modelled from the spec: `crate::host::AdvertisingFilterPolicy` is not under `src/`. -/
inductive AdvertisingFilterPolicy
  | AllowConnectionAndScan
  | WhiteListScan
  | WhiteListConnection
  | WhiteListConnectionAndScan
deriving DecidableEq, Repr

def AdvertisingFilterPolicy.toU8 : AdvertisingFilterPolicy → Nat
  | .AllowConnectionAndScan => 0
  | .WhiteListScan => 1
  | .WhiteListConnection => 2
  | .WhiteListConnectionAndScan => 3

/-- gap.rs `AddressType`: the type of address used in advertising packets
(Public = 0x00, Random = 0x01, ResolvablePrivate = 0x02, NonResolvablePrivate = 0x03). -/
inductive AddressType
  | Public
  | Random
  | ResolvablePrivate
  | NonResolvablePrivate
deriving DecidableEq, Repr

def AddressType.toU8 : AddressType → Nat
  | .Public => 0
  | .Random => 1
  | .ResolvablePrivate => 2
  | .NonResolvablePrivate => 3

/-- Modelled from the spec: the shared status-code table (`crate::Status` and its
`TryFrom<u8>`) is at the crate root, not under `src/`.  The spec fixes 0x00 as the
success status and uses 0x0C as its example of a mappable non-success status; the
claims under verification depend on no other entry, so the modelled table maps only
these two bytes and treats every other byte as unmappable. -/
inductive Status
  | Success
  | CommandDisallowed
deriving DecidableEq, Repr

def statusFromU8 (b : Nat) : Option Status :=
  if b = 0 then some .Success
  else if b = 12 then some .CommandDisallowed
  else none

/-- gap.rs `Error` (validation errors for GAP commands). -/
inductive GapError
  | BadConnectionInterval (min max : Duration)
  | BadAdvertisingType (t : AdvertisingType)
  | BadAdvertisingInterval (min max : Duration)
  | BadEncryptionKeySizeRange (min max : Nat)
  | BadAddressType (t : AddressType)
  | BadPowerAmplifierLevel (level : Nat)
  | BadFixedPin (pin : Nat)
  | BadAdvertisingFilterPolicy (p : AdvertisingFilterPolicy)
  | BadAdvertisingDataLength (len : Nat)
  | BadTerminationReason (s : Status)
  | WhiteListTooLong
  | NoProcedure
deriving DecidableEq, Repr

/-- response.rs `super::VendorError` variants used by the embedded decoders. -/
inductive VendorError
  | BadConfigParameterLength (len : Nat)
  | UnknownLinkState (b : Nat)
  | BadPassKeyRequirement (b : Nat)
  | BadBooleanValue (b : Nat)
  | PartialBondedDeviceAddress
  | BadBdAddrType (b : Nat)
deriving DecidableEq, Repr

/-- Modelled from the spec: `crate::event::Error` is not under `src/`.  Variants as
used by response.rs: too-short buffer (actual vs required), unmappable status byte,
unknown opcode, and wrapped vendor-specific decode errors. -/
inductive EventError
  | BadLength (actual required : Nat)
  | BadStatus (b : Nat)
  | UnknownOpcode (op : Nat)
  | Vendor (e : VendorError)
deriving DecidableEq, Repr

/-- response.rs `to_status`: `require_len_at_least!(bytes, 1)` then map byte 0 through
the status table (the `require_len_at_least!` macro is modelled from the spec as the
too-short failure carrying actual vs required length). -/
def to_status (bytes : List Nat) : Except EventError Status :=
  if bytes.length < 1 then .error (.BadLength bytes.length 1)
  else
    match statusFromU8 (bytes.getD 0 0) with
    | some s => .ok s
    | none => .error (.BadStatus (bytes.getD 0 0))

/-- gap.rs `LocalName`. -/
inductive LocalName
  | Shortened (name : List Nat)
  | Complete (name : List Nat)
deriving DecidableEq, Repr

/-- gap.rs `DiscoverableParameters` (byte-slice fields as `List Nat`). -/
structure DiscoverableParameters where
  advertising_type : AdvertisingType
  advertising_interval : Option (Duration × Duration)
  address_type : OwnAddressType
  filter_policy : AdvertisingFilterPolicy
  local_name : Option LocalName
  advertising_data : List Nat
  conn_interval : Option Duration × Option Duration
deriving DecidableEq, Repr

/-- gap.rs `DiscoverableParameters::MAX_LENGTH`. -/
def DiscoverableParameters.MAX_LENGTH : Nat := 14 + 31 + 248

/-- gap.rs `DiscoverableParameters::name_len`. -/
def DiscoverableParameters.name_len (p : DiscoverableParameters) : Nat :=
  match p.local_name with
  | some (.Shortened bs) => 1 + bs.length
  | some (.Complete bs) => 1 + bs.length
  | none => 0

/-- gap.rs `DiscoverableParameters::required_len`. -/
def DiscoverableParameters.required_len (p : DiscoverableParameters) : Nat :=
  13 + p.name_len + p.advertising_data.length

/-- The final check of `DiscoverableParameters::validate`: the connection interval
pair, when both ends are given, must not be inverted. -/
def DiscoverableParameters.validate_conn (p : DiscoverableParameters) :
    Except GapError Unit :=
  match p.conn_interval with
  | (some mn, some mx) =>
    if Duration.gtb mn mx then .error (.BadConnectionInterval mn mx) else .ok ()
  | _ => .ok ()

/-- gap.rs `DiscoverableParameters::validate`, in source check order: advertising
type subset, then advertising interval inversion, then connection interval inversion. -/
def DiscoverableParameters.validate (p : DiscoverableParameters) : Except GapError Unit :=
  match p.advertising_type with
  | .ConnectableUndirected | .ScannableUndirected | .NonConnectableUndirected =>
    match p.advertising_interval with
    | some interval =>
      if Duration.gtb interval.1 interval.2 then
        .error (.BadAdvertisingInterval interval.1 interval.2)
      else p.validate_conn
    | none => p.validate_conn
  | t => .error (.BadAdvertisingType t)

/-- gap.rs `DiscoverableParameters::copy_into_slice`.  The `assert!(len <= bytes.len())`
contract is modelled by returning `none` (panic) when the buffer is too small; numeric
writes mirror the source statement order. -/
def DiscoverableParameters.copy_into_slice (p : DiscoverableParameters) (bytes : List Nat) :
    Option (List Nat × Nat) :=
  let len := p.required_len
  if len ≤ bytes.length then
    let no_interval : Duration × Duration := (⟨0, 0⟩, ⟨0, 0⟩)
    let b := bytes.set 0 p.advertising_type.toU8
    let b := writeSlice b 1
      (u16le (to_connection_length_value (p.advertising_interval.getD no_interval).1))
    let b := writeSlice b 3
      (u16le (to_connection_length_value (p.advertising_interval.getD no_interval).2))
    let b := b.set 5 p.address_type.toU8
    let b := b.set 6 p.filter_policy.toU8
    let step :=
      match p.local_name with
      | none => (b.set 7 0, 7)
      | some (.Shortened name) =>
        (writeSlice (b.set 7 ((1 + name.length % 256) % 256)) 8 (8 :: name), 9 + name.length)
      | some (.Complete name) =>
        (writeSlice (b.set 7 ((1 + name.length % 256) % 256)) 8 (9 :: name), 9 + name.length)
    let b := step.1
    let advertising_data_len_index := step.2
    let b := b.set advertising_data_len_index (p.advertising_data.length % 256)
    let b := writeSlice b (advertising_data_len_index + 1) p.advertising_data
    let conn_interval_index := advertising_data_len_index + 1 + p.advertising_data.length
    let b := writeSlice b conn_interval_index
      (u16le (match p.conn_interval.1 with
        | some d => to_conn_interval_value d
        | none => 0))
    let b := writeSlice b (conn_interval_index + 2)
      (u16le (match p.conn_interval.2 with
        | some d => to_conn_interval_value d
        | none => 0))
    some (b, len)
  else none

/-- Modelled opcode values: the numeric constants live in `src/vendor/opcode.rs`, which
is not under `src/`.  The claims depend only on the dispatch table being closed and the
constants pairwise distinct, so distinct 16-bit values are assigned here. -/
def HAL_GET_FIRMWARE_REVISION : Nat := 0xFC00
def HAL_WRITE_CONFIG_DATA : Nat := 0xFC01
def HAL_READ_CONFIG_DATA : Nat := 0xFC02
def HAL_SET_TX_POWER_LEVEL : Nat := 0xFC03
def HAL_DEVICE_STANDBY : Nat := 0xFC04
def HAL_TX_TEST_PACKET_COUNT : Nat := 0xFC05
def HAL_START_TONE : Nat := 0xFC06
def HAL_STOP_TONE : Nat := 0xFC07
def HAL_GET_LINK_STATUS : Nat := 0xFC08
def HAL_GET_ANCHOR_PERIOD : Nat := 0xFC09
def HAL_GET_PM_DEBUG_INFO : Nat := 0xFC0A
def HAL_READ_RSSI : Nat := 0xFC0B
def HAL_READ_RADIO_REG : Nat := 0xFC0C
def HAL_READ_RAW_RSSI : Nat := 0xFC0D
def GAP_SET_NONDISCOVERABLE : Nat := 0xFC81
def GAP_SET_LIMITED_DISCOVERABLE : Nat := 0xFC82
def GAP_SET_DISCOVERABLE : Nat := 0xFC83
def GAP_SET_DIRECT_CONNECTABLE : Nat := 0xFC84
def GAP_SET_IO_CAPABILITY : Nat := 0xFC85
def GAP_SET_AUTHENTICATION_REQUIREMENT : Nat := 0xFC86
def GAP_SET_AUTHORIZATION_REQUIREMENT : Nat := 0xFC87
def GAP_PASS_KEY_RESPONSE : Nat := 0xFC88
def GAP_AUTHORIZATION_RESPONSE : Nat := 0xFC89
def GAP_INIT : Nat := 0xFC8A
def GAP_SET_NONCONNECTABLE : Nat := 0xFC8B
def GAP_SET_UNDIRECTED_CONNECTABLE : Nat := 0xFC8C
def GAP_UPDATE_ADVERTISING_DATA : Nat := 0xFC8E
def GAP_DELETE_AD_TYPE : Nat := 0xFC8F
def GAP_GET_SECURITY_LEVEL : Nat := 0xFC90
def GAP_SET_EVENT_MASK : Nat := 0xFC91
def GAP_CONFIGURE_WHITE_LIST : Nat := 0xFC92
def GAP_CLEAR_SECURITY_DATABASE : Nat := 0xFC94
def GAP_ALLOW_REBOND : Nat := 0xFC95
def GAP_TERMINATE_PROCEDURE : Nat := 0xFC97
def GAP_RESOLVE_PRIVATE_ADDRESS : Nat := 0xFC98
def GAP_GET_BONDED_DEVICES : Nat := 0xFC9A
def GAP_SET_BROADCAST_MODE : Nat := 0xFCA1
def GAP_START_OBSERVATION_PROCEDURE : Nat := 0xFCA2
def GAP_IS_DEVICE_BONDED : Nat := 0xFCA4
def GAP_ADD_DEVICES_TO_RESOLVING_LIST : Nat := 0xFCA5
def GAP_ADD_DEVICES_TO_LIST : Nat := 0xFCA6
def GATT_INIT : Nat := 0xFD01
def GATT_ADD_SERVICE : Nat := 0xFD02
def GATT_INCLUDE_SERVICE : Nat := 0xFD03
def GATT_ADD_CHARACTERISTIC : Nat := 0xFD04
def GATT_ADD_CHARACTERISTIC_DESCRIPTOR : Nat := 0xFD05
def GATT_UPDATE_CHARACTERISTIC_VALUE : Nat := 0xFD06
def GATT_DELETE_CHARACTERISTIC : Nat := 0xFD07
def GATT_DELETE_SERVICE : Nat := 0xFD08
def GATT_DELETE_INCLUDED_SERVICE : Nat := 0xFD09
def GATT_SET_EVENT_MASK : Nat := 0xFD0A
def GATT_WRITE_WITHOUT_RESPONSE : Nat := 0xFD0B
def GATT_SIGNED_WRITE_WITHOUT_RESPONSE : Nat := 0xFD0C
def GATT_CONFIRM_INDICATION : Nat := 0xFD0D
def GATT_WRITE_RESPONSE : Nat := 0xFD0E
def GATT_ALLOW_READ : Nat := 0xFD0F
def GATT_SET_SECURITY_PERMISSION : Nat := 0xFD10
def GATT_SET_DESCRIPTOR_VALUE : Nat := 0xFD11
def GATT_READ_HANDLE_VALUE : Nat := 0xFD12
def GATT_READ_HANDLE_VALUE_OFFSET : Nat := 0xFD13
def GATT_UPDATE_LONG_CHARACTERISTIC_VALUE : Nat := 0xFD14
def L2CAP_CONN_PARAM_UPDATE_RESP : Nat := 0xFD81

/-- Modelled from the spec: the `impl_validate_variable_length_params!` macro body is
in the crate root, not under `src/`.  Per the spec, the command validates first and a
failed validation prevents any bytes from being sent; on success it serializes into a
`MAX_LENGTH` buffer and hands `(opcode, payload)` to `controller_write` exactly once.
The result lists the `controller_write` invocations; `none` models a serializer panic. -/
def run_discoverable_command (opcode : Nat) (p : DiscoverableParameters) :
    Option (Except GapError (List (Nat × List Nat))) :=
  match p.validate with
  | .error e => some (.error e)
  | .ok _ =>
    match p.copy_into_slice (List.replicate DiscoverableParameters.MAX_LENGTH 0) with
    | some (buf, len) => some (.ok [(opcode, buf.take len)])
    | none => none

/-- gap.rs `set_discoverable` (via the validate-then-write macro glue). -/
def set_discoverable (p : DiscoverableParameters) :
    Option (Except GapError (List (Nat × List Nat))) :=
  run_discoverable_command GAP_SET_DISCOVERABLE p

/-- gap.rs `set_limited_discoverable` (via the validate-then-write macro glue). -/
def set_limited_discoverable (p : DiscoverableParameters) :
    Option (Except GapError (List (Nat × List Nat))) :=
  run_discoverable_command GAP_SET_LIMITED_DISCOVERABLE p

/-- gap.rs `SecureConnectionSupport`. -/
inductive SecureConnectionSupport
  | NotSupported
  | Optional
  | Mandatory
deriving DecidableEq, Repr

/-- gap.rs `Pin`. -/
inductive Pin
  | Requested
  | Fixed (pin : Nat)
deriving DecidableEq, Repr

/-- gap.rs `AuthenticationRequirements`. -/
structure AuthenticationRequirements where
  bonding_required : Bool
  mitm_protection_required : Bool
  secure_connection_support : SecureConnectionSupport
  keypress_notification_support : Bool
  encryption_key_size_range : Nat × Nat
  fixed_pin : Pin
  identity_address_type : AddressType
deriving DecidableEq, Repr

/-- The final check of `AuthenticationRequirements::validate`: the identity address
type must be public or random. -/
def AuthenticationRequirements.validate_addr (r : AuthenticationRequirements) :
    Except GapError Unit :=
  if r.identity_address_type ≠ .Public ∧ r.identity_address_type ≠ .Random then
    .error (.BadAddressType r.identity_address_type)
  else .ok ()

/-- gap.rs `AuthenticationRequirements::validate`, in source check order: key size
range inversion, then fixed-pin range, then identity address type. -/
def AuthenticationRequirements.validate (r : AuthenticationRequirements) :
    Except GapError Unit :=
  if r.encryption_key_size_range.1 > r.encryption_key_size_range.2 then
    .error (.BadEncryptionKeySizeRange r.encryption_key_size_range.1
      r.encryption_key_size_range.2)
  else
    match r.fixed_pin with
    | .Fixed pin =>
      if pin > 999999 then .error (.BadFixedPin pin) else r.validate_addr
    | .Requested => r.validate_addr

/-- gap.rs `pass_key_response`: rejects `pin > 999_999`, otherwise writes the
connection handle (LE u16) then the pin (LE u32) and hands the 6-byte payload to
`controller_write` under `GAP_PASS_KEY_RESPONSE`. -/
def pass_key_response (conn_handle : Nat) (pin : Nat) : Except GapError (Nat × List Nat) :=
  if pin > 999999 then .error (.BadFixedPin pin)
  else .ok (GAP_PASS_KEY_RESPONSE, u16le (conn_handle % 2 ^ 16) ++ u32le (pin % 2 ^ 32))

/-- Modelled from the spec: `crate::BdAddrType` is at the crate root, not under `src/`.
Address wire encoding per the spec: 7 bytes, one discriminant byte (0 public, 1 random)
then the 6 address bytes. -/
inductive BdAddrType
  | Public (addr : List Nat)
  | Random (addr : List Nat)
deriving DecidableEq, Repr

/-- Modelled from the spec: `crate::to_bd_addr_type` (crate root, not under `src/`):
discriminant byte 0 is a public address, 1 a random address, anything else an error. -/
def to_bd_addr_type (b : Nat) (addr : List Nat) : Option BdAddrType :=
  if b = 0 then some (.Public addr)
  else if b = 1 then some (.Random addr)
  else none

/-- Pad or trim an address byte list to exactly 6 bytes. -/
def pad6 (a : List Nat) : List Nat := (a ++ List.replicate 6 0).take 6

/-- Modelled from the spec: `BdAddrType::copy_into_slice` (crate root) writes the
7-byte wire form, discriminant byte first. -/
def BdAddrType.wire_bytes : BdAddrType → List Nat
  | .Public a => 0 :: pad6 a
  | .Random a => 1 :: pad6 a

/-- Modelled from the spec: `crate::host::PeerAddrType` (not under `src/`), the
resolving-list identity-address flavour, same 7-byte wire form. -/
inductive PeerAddrType
  | PublicIdentity (addr : List Nat)
  | RandomIdentity (addr : List Nat)
deriving DecidableEq, Repr

def PeerAddrType.wire_bytes : PeerAddrType → List Nat
  | .PublicIdentity a => 0 :: pad6 a
  | .RandomIdentity a => 1 :: pad6 a

/-- gap.rs `AddDeviceToListMode`. -/
inductive AddDeviceToListMode
  | AppendResoling
  | ClearAndSetResolving
  | AppendWhitelist
  | ClearAndSetWhitelist
  | AppendBoth
  | ClearAndSetBoth
deriving DecidableEq, Repr

def AddDeviceToListMode.toU8 : AddDeviceToListMode → Nat
  | .AppendResoling => 0
  | .ClearAndSetResolving => 1
  | .AppendWhitelist => 2
  | .ClearAndSetWhitelist => 3
  | .AppendBoth => 4
  | .ClearAndSetBoth => 5

/-- gap.rs `add_devices_to_resolving_list`: `bytes[0] = count`, entries written from
index 1 (7 bytes each), then the clear flag, payload `bytes[..index+1]`.  `none`
models the slice-bound panic for oversized lists. -/
def add_devices_to_resolving_list (whitelist_identities : List PeerAddrType)
    (clear_resolving_list : Bool) : Option (Nat × List Nat) :=
  let n := whitelist_identities.length
  if 7 * n + 2 ≤ 254 then
    let bytes := (List.replicate 254 0).set 0 (n % 256)
    let final := whitelist_identities.foldl
      (fun (acc : List Nat × Nat) id => (writeSlice acc.1 acc.2 id.wire_bytes, acc.2 + 7))
      (bytes, 1)
    let bytes := final.1.set final.2 (if clear_resolving_list then 1 else 0)
    some (GAP_ADD_DEVICES_TO_RESOLVING_LIST, bytes.take (final.2 + 1))
  else none

/-- gap.rs `add_devices_to_list`: `bytes[0] = count`, but the entry-writing index
starts at 0 (as in the source), then the mode byte, payload `bytes[..index+1]`. -/
def add_devices_to_list (list_entries : List BdAddrType) (mode : AddDeviceToListMode) :
    Option (Nat × List Nat) :=
  let n := list_entries.length
  if 7 * n + 1 ≤ 254 then
    let bytes := (List.replicate 254 0).set 0 (n % 256)
    let final := list_entries.foldl
      (fun (acc : List Nat × Nat) entry =>
        (writeSlice acc.1 acc.2 entry.wire_bytes, acc.2 + 7))
      (bytes, 0)
    let bytes := final.1.set final.2 mode.toU8
    some (GAP_ADD_DEVICES_TO_LIST, bytes.take (final.2 + 1))
  else none

/-- Written from the claim/spec wording (for comparison with `add_devices_to_list`):
one length-prefix byte, then the 7-byte serialization of each entry in order, then
the mode byte. -/
def spec_add_devices_payload (list_entries : List BdAddrType)
    (mode : AddDeviceToListMode) : List Nat :=
  list_entries.length % 256 :: (list_entries.flatMap BdAddrType.wire_bytes) ++ [mode.toU8]

/-! Response decoders (response.rs).  The `require_len!` / `require_len_at_least!`
macros are at the crate root, not under `src/`; modelled from the spec as the
too-short failure carrying actual vs required length (exact / at-least). -/

/-- response.rs `HalFirmwareRevision`. -/
structure HalFirmwareRevision where
  status : Status
  revision : Nat
deriving DecidableEq, Repr

/-- response.rs `to_hal_firmware_revision`. -/
def to_hal_firmware_revision (bytes : List Nat) : Except EventError HalFirmwareRevision :=
  if bytes.length ≠ 3 then .error (.BadLength bytes.length 3)
  else (to_status bytes).map fun s => ⟨s, readU16 bytes 1⟩

/-- response.rs `HalConfigParameter`. -/
inductive HalConfigParameter
  | PublicAddress (addr : List Nat)
  | RandomAddress (addr : List Nat)
  | Diversifier (d : Nat)
  | EncryptionKey (key : List Nat)
  | Byte (b : Nat)
deriving DecidableEq, Repr

/-- response.rs `to_hal_config_parameter`: the value kind is selected by length. -/
def to_hal_config_parameter (bytes : List Nat) : Except EventError HalConfigParameter :=
  if bytes.length = 6 then .ok (.PublicAddress bytes)
  else if bytes.length = 2 then .ok (.Diversifier (readU16 bytes 0))
  else if bytes.length = 16 then .ok (.EncryptionKey bytes)
  else if bytes.length = 1 then .ok (.Byte (bytes.getD 0 0))
  else .error (.Vendor (.BadConfigParameterLength bytes.length))

/-- response.rs `HalConfigData`. -/
structure HalConfigData where
  status : Status
  value : HalConfigParameter
deriving DecidableEq, Repr

/-- response.rs `to_hal_config_data`. -/
def to_hal_config_data (bytes : List Nat) : Except EventError HalConfigData :=
  if bytes.length < 2 then .error (.BadLength bytes.length 2)
  else
    match to_status bytes with
    | .error e => .error e
    | .ok s =>
      match to_hal_config_parameter (bytes.drop 1) with
      | .error e => .error e
      | .ok v => .ok ⟨s, v⟩

/-- response.rs `HalTxTestPacketCount`. -/
structure HalTxTestPacketCount where
  status : Status
  packet_count : Nat
deriving DecidableEq, Repr

/-- response.rs `to_hal_tx_test_packet_count`. -/
def to_hal_tx_test_packet_count (bytes : List Nat) :
    Except EventError HalTxTestPacketCount :=
  if bytes.length ≠ 5 then .error (.BadLength bytes.length 5)
  else (to_status bytes).map fun s => ⟨s, readU32 bytes 1⟩

/-- response.rs `LinkState`. -/
inductive LinkState
  | Idle
  | Advertising
  | ConnectedAsPeripheral
  | Scanning
  | Reserved
  | ConnectedAsPrimary
  | TxTest
  | RxTest
deriving DecidableEq, Repr

/-- response.rs `impl TryFrom<u8> for LinkState`. -/
def linkStateFromU8 (b : Nat) : Option LinkState :=
  if b = 0 then some .Idle
  else if b = 1 then some .Advertising
  else if b = 2 then some .ConnectedAsPeripheral
  else if b = 3 then some .Scanning
  else if b = 4 then some .Reserved
  else if b = 5 then some .ConnectedAsPrimary
  else if b = 6 then some .TxTest
  else if b = 7 then some .RxTest
  else none

/-- response.rs `ClientStatus` (connection handle as its raw u16). -/
structure ClientStatus where
  state : LinkState
  conn_handle : Nat
deriving DecidableEq, Repr

/-- response.rs `HalLinkStatus` (the 8-client array as a list). -/
structure HalLinkStatus where
  status : Status
  clients : List ClientStatus
deriving DecidableEq, Repr

/-- The client-filling loop of `to_hal_link_status`: state byte at `1 + c`, handle
at `9 + 2c`, aborting at the first unknown link state. -/
def parseClients (bytes : List Nat) : List Nat → Except EventError (List ClientStatus)
  | [] => .ok []
  | c :: rest =>
    match linkStateFromU8 (bytes.getD (1 + c) 0) with
    | none => .error (.Vendor (.UnknownLinkState (bytes.getD (1 + c) 0)))
    | some st =>
      match parseClients bytes rest with
      | .error e => .error e
      | .ok others => .ok (⟨st, readU16 bytes (9 + 2 * c)⟩ :: others)

/-- response.rs `to_hal_link_status`. -/
def to_hal_link_status (bytes : List Nat) : Except EventError HalLinkStatus :=
  if bytes.length ≠ 25 then .error (.BadLength bytes.length 25)
  else
    match to_status bytes with
    | .error e => .error e
    | .ok s =>
      match parseClients bytes (List.range 8) with
      | .error e => .error e
      | .ok clients => .ok ⟨s, clients⟩

/-- `Duration::from_micros`. -/
def durationFromMicros (us : Nat) : Duration := ⟨us / 1000000, us % 1000000 * 1000⟩

/-- response.rs `HalAnchorPeriod`. -/
structure HalAnchorPeriod where
  status : Status
  anchor_interval : Duration
  max_slot : Duration
deriving DecidableEq, Repr

/-- response.rs `to_hal_anchor_period`. -/
def to_hal_anchor_period (bytes : List Nat) : Except EventError HalAnchorPeriod :=
  if bytes.length ≠ 9 then .error (.BadLength bytes.length 9)
  else (to_status bytes).map fun s =>
    ⟨s, durationFromMicros (625 * readU32 bytes 1),
      durationFromMicros (625 * readU32 bytes 5)⟩

/-- response.rs `HalPmDebugInfo`. -/
structure HalPmDebugInfo where
  tx : Nat
  rx : Nat
  mblocks : Nat
deriving DecidableEq, Repr

/-- response.rs `to_hal_pm_debug_info`. -/
def to_hal_pm_debug_info (bytes : List Nat) : Except EventError HalPmDebugInfo :=
  if bytes.length ≠ 3 then .error (.BadLength bytes.length 3)
  else .ok ⟨bytes.getD 0 0, bytes.getD 1 0, bytes.getD 2 0⟩

/-- response.rs `GapInit` (attribute handles as raw u16). -/
structure GapInit where
  status : Status
  service_handle : Nat
  dev_name_handle : Nat
  appearance_handle : Nat
deriving DecidableEq, Repr

/-- response.rs `to_gap_init`. -/
def to_gap_init (bytes : List Nat) : Except EventError GapInit :=
  if bytes.length ≠ 7 then .error (.BadLength bytes.length 7)
  else (to_status bytes).map fun s =>
    ⟨s, readU16 bytes 1, readU16 bytes 3, readU16 bytes 5⟩

/-- response.rs `PassKeyRequirement`. -/
inductive PassKeyRequirement
  | NotRequired
  | FixedPin
  | Generated
deriving DecidableEq, Repr

/-- response.rs `impl TryFrom<u8> for PassKeyRequirement`. -/
def passKeyRequirementFromU8 (b : Nat) : Option PassKeyRequirement :=
  if b = 0 then some .NotRequired
  else if b = 1 then some .FixedPin
  else if b = 2 then some .Generated
  else none

/-- response.rs `to_boolean`: 0 is false, 1 is true, anything else is an error. -/
def to_boolean (b : Nat) : Except EventError Bool :=
  if b = 0 then .ok false
  else if b = 1 then .ok true
  else .error (.Vendor (.BadBooleanValue b))

/-- response.rs `GapSecurityLevel`. -/
structure GapSecurityLevel where
  status : Status
  mitm_protection_required : Bool
  bonding_required : Bool
  out_of_band_data_present : Bool
  pass_key_required : PassKeyRequirement
deriving DecidableEq, Repr

/-- response.rs `to_gap_security_level`. -/
def to_gap_security_level (bytes : List Nat) : Except EventError GapSecurityLevel :=
  if bytes.length ≠ 5 then .error (.BadLength bytes.length 5)
  else
    match to_status bytes, to_boolean (bytes.getD 1 0), to_boolean (bytes.getD 2 0),
        to_boolean (bytes.getD 3 0) with
    | .ok s, .ok mitm, .ok bonding, .ok oob =>
      match passKeyRequirementFromU8 (bytes.getD 4 0) with
      | some pk => .ok ⟨s, mitm, bonding, oob, pk⟩
      | none => .error (.Vendor (.BadPassKeyRequirement (bytes.getD 4 0)))
    | .error e, _, _, _ => .error e
    | .ok _, .error e, _, _ => .error e
    | .ok _, .ok _, .error e, _ => .error e
    | .ok _, .ok _, .ok _, .error e => .error e

/-- response.rs `GapResolvePrivateAddress` (the resolved address as its 6 bytes). -/
structure GapResolvePrivateAddress where
  status : Status
  bd_addr : Option (List Nat)
deriving DecidableEq, Repr

/-- response.rs `to_gap_resolve_private_address`: read the status; on success require
exactly 7 bytes and return the 6 address bytes, otherwise return the status with no
address, reading nothing past the status byte. -/
def to_gap_resolve_private_address (bytes : List Nat) :
    Except EventError GapResolvePrivateAddress :=
  match to_status bytes with
  | .error e => .error e
  | .ok status =>
    if status = .Success then
      if bytes.length ≠ 7 then .error (.BadLength bytes.length 7)
      else .ok ⟨status, some ((bytes.drop 1).take 6)⟩
    else .ok ⟨status, none⟩

/-- response.rs `MAX_ADDRESSES`. -/
def MAX_ADDRESSES : Nat := 35

/-- response.rs `GapBondedDevices`: the count plus the fixed 35-entry buffer. -/
structure GapBondedDevices where
  status : Status
  address_count : Nat
  address_buffer : List BdAddrType
deriving DecidableEq, Repr

/-- response.rs `GapBondedDevices::bonded_addresses`: slices
`address_buffer[..address_count]`; `none` models the slice-bound panic when the
count exceeds the buffer length. -/
def GapBondedDevices.bonded_addresses (d : GapBondedDevices) : Option (List BdAddrType) :=
  if d.address_count ≤ d.address_buffer.length then
    some (d.address_buffer.take d.address_count)
  else none

/-- One iteration of the address loop in `to_gap_bonded_devices`: for entry `i` the
type byte is at `2 + 7i` and the 6 address bytes follow it. -/
def parseBondedEntry (bytes : List Nat) (i : Nat) : Except EventError BdAddrType :=
  let index := 2 + 7 * i
  match to_bd_addr_type (bytes.getD index 0) ((bytes.drop (index + 1)).take 6) with
  | some a => .ok a
  | none => .error (.Vendor (.BadBdAddrType (bytes.getD index 0)))

/-- The address loop of `to_gap_bonded_devices`, aborting at the first bad type byte. -/
def parseBondedEntries (bytes : List Nat) : List Nat → Except EventError (List BdAddrType)
  | [] => .ok []
  | i :: rest =>
    match parseBondedEntry bytes i with
    | .error e => .error e
    | .ok a =>
      match parseBondedEntries bytes rest with
      | .error e => .error e
      | .ok others => .ok (a :: others)

/-- The all-zero public address used to initialize the address buffer. -/
def zeroAddr : BdAddrType := .Public (List.replicate 6 0)

/-- response.rs `to_gap_bonded_devices`: on success status, read the count from
byte 1, require the length to be exactly `2 + 7 * count`, and parse the first
`min count 35` entries into the 35-entry buffer (the source's
`iter_mut().enumerate().take(address_count)` caps the loop at the buffer length);
on any other status return a zero count and an untouched buffer. -/
def to_gap_bonded_devices (bytes : List Nat) : Except EventError GapBondedDevices :=
  match to_status bytes with
  | .error e => .error e
  | .ok status =>
    match status with
    | .Success =>
      if bytes.length < 2 then .error (.BadLength bytes.length 2)
      else
        let address_count := bytes.getD 1 0
        if bytes.length ≠ 2 + 7 * address_count then
          .error (.Vendor .PartialBondedDeviceAddress)
        else
          match parseBondedEntries bytes (List.range (min address_count MAX_ADDRESSES)) with
          | .error e => .error e
          | .ok parsed =>
            .ok ⟨status, address_count,
              parsed ++
                List.replicate (MAX_ADDRESSES - min address_count MAX_ADDRESSES) zeroAddr⟩
    | _ => .ok ⟨status, 0, List.replicate MAX_ADDRESSES zeroAddr⟩

/-- response.rs `GattService` (handle as raw u16). -/
structure GattService where
  status : Status
  service_handle : Nat
deriving DecidableEq, Repr

/-- response.rs `to_gatt_service`. -/
def to_gatt_service (bytes : List Nat) : Except EventError GattService :=
  if bytes.length ≠ 3 then .error (.BadLength bytes.length 3)
  else (to_status bytes).map fun s => ⟨s, readU16 bytes 1⟩

/-- response.rs `GattCharacteristic`. -/
structure GattCharacteristic where
  status : Status
  characteristic_handle : Nat
deriving DecidableEq, Repr

/-- response.rs `to_gatt_characteristic`. -/
def to_gatt_characteristic (bytes : List Nat) : Except EventError GattCharacteristic :=
  if bytes.length ≠ 3 then .error (.BadLength bytes.length 3)
  else (to_status bytes).map fun s => ⟨s, readU16 bytes 1⟩

/-- response.rs `GattCharacteristicDescriptor`. -/
structure GattCharacteristicDescriptor where
  status : Status
  descriptor_handle : Nat
deriving DecidableEq, Repr

/-- response.rs `to_gatt_characteristic_descriptor`. -/
def to_gatt_characteristic_descriptor (bytes : List Nat) :
    Except EventError GattCharacteristicDescriptor :=
  if bytes.length ≠ 3 then .error (.BadLength bytes.length 3)
  else (to_status bytes).map fun s => ⟨s, readU16 bytes 1⟩

/-- response.rs `GattHandleValue::MAX_VALUE_BUF`. -/
def MAX_VALUE_BUF : Nat := 249

/-- response.rs `GattHandleValue`: status plus the fixed 249-byte value buffer and
the valid length. -/
structure GattHandleValue where
  status : Status
  value_buf : List Nat
  value_len : Nat
deriving DecidableEq, Repr

/-- response.rs `GattHandleValue::value`: slices `value_buf[..value_len]`; `none`
models the slice-bound panic when `value_len` exceeds the buffer length. -/
def GattHandleValue.value (v : GattHandleValue) : Option (List Nat) :=
  if v.value_len ≤ v.value_buf.length then some (v.value_buf.take v.value_len)
  else none

/-- response.rs `to_gatt_handle_value`: at least 3 bytes, read the status, read the
LE u16 value length from bytes 1..3, require the length to be exactly `3 + value_len`,
then copy into the 249-byte buffer.  The outer `none` models the panic of
`value_buf[..value_len]` when `value_len > 249`. -/
def to_gatt_handle_value (bytes : List Nat) :
    Option (Except EventError GattHandleValue) :=
  if bytes.length < 3 then some (.error (.BadLength bytes.length 3))
  else
    match to_status bytes with
    | .error e => some (.error e)
    | .ok status =>
      let value_len := readU16 bytes 1
      if bytes.length ≠ 3 + value_len then
        some (.error (.BadLength bytes.length (3 + value_len)))
      else if value_len ≤ MAX_VALUE_BUF then
        some (.ok ⟨status,
          (bytes.drop 3).take value_len ++ List.replicate (MAX_VALUE_BUF - value_len) 0,
          value_len⟩)
      else none

/-- response.rs `VendorReturnParameters`: the tagged union of typed return parameters. -/
inductive VendorReturnParameters
  | HalGetFirmwareRevision (v : HalFirmwareRevision)
  | HalWriteConfigData (s : Status)
  | HalReadConfigData (v : HalConfigData)
  | HalSetTxPowerLevel (s : Status)
  | HalDeviceStandby (s : Status)
  | HalGetTxTestPacketCount (v : HalTxTestPacketCount)
  | HalStartTone (s : Status)
  | HalStopTone (s : Status)
  | HalGetLinkStatus (v : HalLinkStatus)
  | HalGetAnchorPeriod (v : HalAnchorPeriod)
  | HalGetPmDebugInfo (v : HalPmDebugInfo)
  | HalReadRssi (b : Nat)
  | HalReadRadioReg (b : Nat)
  | HalReadRawRssi (b : Nat)
  | GapSetNonDiscoverable (s : Status)
  | GapSetDiscoverable (s : Status)
  | GapSetDirectConnectable (s : Status)
  | GapSetIoCapability (s : Status)
  | GapSetAuthenticationRequirement (s : Status)
  | GapSetAuthorizationRequirement (s : Status)
  | GapPassKeyResponse (s : Status)
  | GapAuthorizationResponse (s : Status)
  | GapInitialize (v : GapInit)
  | GapSetNonConnectable (s : Status)
  | GapSetUndirectedConnectable (s : Status)
  | GapUpdateAdvertisingData (s : Status)
  | GapDeleteAdType (s : Status)
  | GapGetSecurityLevel (v : GapSecurityLevel)
  | GapSetEventMask (s : Status)
  | GapConfigureWhiteList (s : Status)
  | GapClearSecurityDatabase (s : Status)
  | GapAllowRebond (s : Status)
  | GapTerminateProcedure (s : Status)
  | GapResolvePrivAddr (v : GapResolvePrivateAddress)
  | GapGetBondedDevices (v : GapBondedDevices)
  | GapSetBroadcastMode (s : Status)
  | GapStartObservationProcedure (s : Status)
  | GapIsDeviceBonded (s : Status)
  | GattInitialize (s : Status)
  | GattAddService (v : GattService)
  | GattIncludeService (v : GattService)
  | GattAddCharacteristic (v : GattCharacteristic)
  | GattAddCharacteristicDescriptor (v : GattCharacteristicDescriptor)
  | GattUpdateCharacteristicValue (s : Status)
  | GattDeleteCharacteristic (s : Status)
  | GattDeleteService (s : Status)
  | GattDeleteIncludedService (s : Status)
  | GattSetEventMask (s : Status)
  | GattWriteWithoutResponse (s : Status)
  | GattSignedWriteWithoutResponse (s : Status)
  | GattConfirmIndication (s : Status)
  | GattWriteResponse (s : Status)
  | GattAllowRead (s : Status)
  | GattSetSecurityPermission (s : Status)
  | GattSetDescriptorValue (s : Status)
  | GattReadHandleValue (v : GattHandleValue)
  | GattReadHandleValueOffset (v : GattHandleValue)
  | GattUpdateLongCharacteristicValue (s : Status)
  | L2CapConnectionParameterUpdateResponse (s : Status)

/-- The opcode-keyed dispatch table of `VendorReturnParameters::new`: every match arm
of the source, as a pair of the opcode and the decoder applied to `bytes[3..]`.
A `none` result models a decoder panic. -/
def opcodeTable : List (Nat × (List Nat → Option (Except EventError VendorReturnParameters))) :=
  [(HAL_GET_FIRMWARE_REVISION, fun p =>
      some ((to_hal_firmware_revision p).map VendorReturnParameters.HalGetFirmwareRevision)),
   (HAL_WRITE_CONFIG_DATA, fun p =>
      some ((to_status p).map VendorReturnParameters.HalWriteConfigData)),
   (HAL_READ_CONFIG_DATA, fun p =>
      some ((to_hal_config_data p).map VendorReturnParameters.HalReadConfigData)),
   (HAL_SET_TX_POWER_LEVEL, fun p =>
      some ((to_status p).map VendorReturnParameters.HalSetTxPowerLevel)),
   (HAL_DEVICE_STANDBY, fun p =>
      some ((to_status p).map VendorReturnParameters.HalDeviceStandby)),
   (HAL_TX_TEST_PACKET_COUNT, fun p =>
      some ((to_hal_tx_test_packet_count p).map VendorReturnParameters.HalGetTxTestPacketCount)),
   (HAL_START_TONE, fun p =>
      some ((to_status p).map VendorReturnParameters.HalStartTone)),
   (HAL_STOP_TONE, fun p =>
      some ((to_status p).map VendorReturnParameters.HalStopTone)),
   (HAL_GET_LINK_STATUS, fun p =>
      some ((to_hal_link_status p).map VendorReturnParameters.HalGetLinkStatus)),
   (HAL_GET_ANCHOR_PERIOD, fun p =>
      some ((to_hal_anchor_period p).map VendorReturnParameters.HalGetAnchorPeriod)),
   (HAL_GET_PM_DEBUG_INFO, fun p =>
      some ((to_hal_pm_debug_info p).map VendorReturnParameters.HalGetPmDebugInfo)),
   (HAL_READ_RSSI, fun p =>
      some (if p.length ≠ 1 then .error (.BadLength p.length 1)
        else .ok (VendorReturnParameters.HalReadRssi (p.getD 0 0)))),
   (HAL_READ_RADIO_REG, fun p =>
      some (if p.length ≠ 1 then .error (.BadLength p.length 1)
        else .ok (VendorReturnParameters.HalReadRadioReg (p.getD 0 0)))),
   (HAL_READ_RAW_RSSI, fun p =>
      some (if p.length ≠ 1 then .error (.BadLength p.length 1)
        else .ok (VendorReturnParameters.HalReadRawRssi (p.getD 0 0)))),
   (GAP_SET_NONDISCOVERABLE, fun p =>
      some ((to_status p).map VendorReturnParameters.GapSetNonDiscoverable)),
   (GAP_SET_DISCOVERABLE, fun p =>
      some ((to_status p).map VendorReturnParameters.GapSetDiscoverable)),
   (GAP_SET_DIRECT_CONNECTABLE, fun p =>
      some ((to_status p).map VendorReturnParameters.GapSetDirectConnectable)),
   (GAP_SET_IO_CAPABILITY, fun p =>
      some ((to_status p).map VendorReturnParameters.GapSetIoCapability)),
   (GAP_SET_AUTHENTICATION_REQUIREMENT, fun p =>
      some ((to_status p).map VendorReturnParameters.GapSetAuthenticationRequirement)),
   (GAP_SET_AUTHORIZATION_REQUIREMENT, fun p =>
      some ((to_status p).map VendorReturnParameters.GapSetAuthorizationRequirement)),
   (GAP_PASS_KEY_RESPONSE, fun p =>
      some ((to_status p).map VendorReturnParameters.GapPassKeyResponse)),
   (GAP_AUTHORIZATION_RESPONSE, fun p =>
      some ((to_status p).map VendorReturnParameters.GapAuthorizationResponse)),
   (GAP_INIT, fun p =>
      some ((to_gap_init p).map VendorReturnParameters.GapInitialize)),
   (GAP_SET_NONCONNECTABLE, fun p =>
      some ((to_status p).map VendorReturnParameters.GapSetNonConnectable)),
   (GAP_SET_UNDIRECTED_CONNECTABLE, fun p =>
      some ((to_status p).map VendorReturnParameters.GapSetUndirectedConnectable)),
   (GAP_UPDATE_ADVERTISING_DATA, fun p =>
      some ((to_status p).map VendorReturnParameters.GapUpdateAdvertisingData)),
   (GAP_DELETE_AD_TYPE, fun p =>
      some ((to_status p).map VendorReturnParameters.GapDeleteAdType)),
   (GAP_GET_SECURITY_LEVEL, fun p =>
      some ((to_gap_security_level p).map VendorReturnParameters.GapGetSecurityLevel)),
   (GAP_SET_EVENT_MASK, fun p =>
      some ((to_status p).map VendorReturnParameters.GapSetEventMask)),
   (GAP_CONFIGURE_WHITE_LIST, fun p =>
      some ((to_status p).map VendorReturnParameters.GapConfigureWhiteList)),
   (GAP_CLEAR_SECURITY_DATABASE, fun p =>
      some ((to_status p).map VendorReturnParameters.GapClearSecurityDatabase)),
   (GAP_ALLOW_REBOND, fun p =>
      some ((to_status p).map VendorReturnParameters.GapAllowRebond)),
   (GAP_TERMINATE_PROCEDURE, fun p =>
      some ((to_status p).map VendorReturnParameters.GapTerminateProcedure)),
   (GAP_RESOLVE_PRIVATE_ADDRESS, fun p =>
      some ((to_gap_resolve_private_address p).map VendorReturnParameters.GapResolvePrivAddr)),
   (GAP_GET_BONDED_DEVICES, fun p =>
      some ((to_gap_bonded_devices p).map VendorReturnParameters.GapGetBondedDevices)),
   (GAP_SET_BROADCAST_MODE, fun p =>
      some ((to_status p).map VendorReturnParameters.GapSetBroadcastMode)),
   (GAP_START_OBSERVATION_PROCEDURE, fun p =>
      some ((to_status p).map VendorReturnParameters.GapStartObservationProcedure)),
   (GAP_IS_DEVICE_BONDED, fun p =>
      some ((to_status p).map VendorReturnParameters.GapIsDeviceBonded)),
   (GATT_INIT, fun p =>
      some ((to_status p).map VendorReturnParameters.GattInitialize)),
   (GATT_ADD_SERVICE, fun p =>
      some ((to_gatt_service p).map VendorReturnParameters.GattAddService)),
   (GATT_INCLUDE_SERVICE, fun p =>
      some ((to_gatt_service p).map VendorReturnParameters.GattIncludeService)),
   (GATT_ADD_CHARACTERISTIC, fun p =>
      some ((to_gatt_characteristic p).map VendorReturnParameters.GattAddCharacteristic)),
   (GATT_ADD_CHARACTERISTIC_DESCRIPTOR, fun p =>
      some ((to_gatt_characteristic_descriptor p).map
        VendorReturnParameters.GattAddCharacteristicDescriptor)),
   (GATT_UPDATE_CHARACTERISTIC_VALUE, fun p =>
      some ((to_status p).map VendorReturnParameters.GattUpdateCharacteristicValue)),
   (GATT_DELETE_CHARACTERISTIC, fun p =>
      some ((to_status p).map VendorReturnParameters.GattDeleteCharacteristic)),
   (GATT_DELETE_SERVICE, fun p =>
      some ((to_status p).map VendorReturnParameters.GattDeleteService)),
   (GATT_DELETE_INCLUDED_SERVICE, fun p =>
      some ((to_status p).map VendorReturnParameters.GattDeleteIncludedService)),
   (GATT_SET_EVENT_MASK, fun p =>
      some ((to_status p).map VendorReturnParameters.GattSetEventMask)),
   (GATT_WRITE_WITHOUT_RESPONSE, fun p =>
      some ((to_status p).map VendorReturnParameters.GattWriteWithoutResponse)),
   (GATT_SIGNED_WRITE_WITHOUT_RESPONSE, fun p =>
      some ((to_status p).map VendorReturnParameters.GattSignedWriteWithoutResponse)),
   (GATT_CONFIRM_INDICATION, fun p =>
      some ((to_status p).map VendorReturnParameters.GattConfirmIndication)),
   (GATT_WRITE_RESPONSE, fun p =>
      some ((to_status p).map VendorReturnParameters.GattWriteResponse)),
   (GATT_ALLOW_READ, fun p =>
      some ((to_status p).map VendorReturnParameters.GattAllowRead)),
   (GATT_SET_SECURITY_PERMISSION, fun p =>
      some ((to_status p).map VendorReturnParameters.GattSetSecurityPermission)),
   (GATT_SET_DESCRIPTOR_VALUE, fun p =>
      some ((to_status p).map VendorReturnParameters.GattSetDescriptorValue)),
   (GATT_READ_HANDLE_VALUE, fun p =>
      (to_gatt_handle_value p).map (Except.map VendorReturnParameters.GattReadHandleValue)),
   (GATT_READ_HANDLE_VALUE_OFFSET, fun p =>
      (to_gatt_handle_value p).map
        (Except.map VendorReturnParameters.GattReadHandleValueOffset)),
   (GATT_UPDATE_LONG_CHARACTERISTIC_VALUE, fun p =>
      some ((to_status p).map VendorReturnParameters.GattUpdateLongCharacteristicValue)),
   (L2CAP_CONN_PARAM_UPDATE_RESP, fun p =>
      some ((to_status p).map VendorReturnParameters.L2CapConnectionParameterUpdateResponse))]

/-- The opcodes of the closed dispatch table. -/
def knownOpcodes : List Nat := opcodeTable.map Prod.fst

/-- response.rs `VendorReturnParameters::new`: `check_len_at_least(bytes, 3)`, then
dispatch on the LE u16 opcode at bytes 1..3 against the closed table, falling through
to `UnknownOpcode` carrying the opcode value. -/
def VendorReturnParameters.new (bytes : List Nat) :
    Option (Except EventError VendorReturnParameters) :=
  if bytes.length < 3 then some (.error (.BadLength bytes.length 3))
  else
    match opcodeTable.lookup (readU16 bytes 1) with
    | some decode => decode (bytes.drop 3)
    | none => some (.error (.UnknownOpcode (readU16 bytes 1)))

/-- response.rs `check_len_at_least`. -/
def check_len_at_least (buffer : List Nat) (len : Nat) : Except EventError Unit :=
  if buffer.length < len then .error (.BadLength buffer.length len) else .ok ()

/-- Concrete discoverable parameters with no local name and empty advertising data. -/
def discoverableNoNameParams : DiscoverableParameters :=
  { advertising_type := .ConnectableUndirected
    advertising_interval := none
    address_type := .Public
    filter_policy := .AllowConnectionAndScan
    local_name := none
    advertising_data := []
    conn_interval := (none, none) }

/-- Concrete discoverable parameters with a disallowed directed advertising type and
both interval pairs inverted. -/
def directedBadParams : DiscoverableParameters :=
  { advertising_type := .ConnectableDirectedHighDutyCycle
    advertising_interval := some (⟨2, 0⟩, ⟨1, 0⟩)
    address_type := .Public
    filter_policy := .AllowConnectionAndScan
    local_name := none
    advertising_data := []
    conn_interval := (some ⟨2, 0⟩, some ⟨1, 0⟩) }

/-- Concrete authentication requirements with the boundary fixed pin 999999. -/
def authReqPinMax : AuthenticationRequirements :=
  { bonding_required := false
    mitm_protection_required := false
    secure_connection_support := .NotSupported
    keypress_notification_support := false
    encryption_key_size_range := (7, 16)
    fixed_pin := .Fixed 999999
    identity_address_type := .Public }

/-- Concrete authentication requirements with the out-of-range fixed pin 1000000. -/
def authReqPinOver : AuthenticationRequirements :=
  { bonding_required := false
    mitm_protection_required := false
    secure_connection_support := .NotSupported
    keypress_notification_support := false
    encryption_key_size_range := (7, 16)
    fixed_pin := .Fixed 1000000
    identity_address_type := .Public }

/-- A helper fact: a key absent from the key column of an association list has no
lookup result. -/
theorem lookup_eq_none_of_not_mem_keys {α : Type} (k : Nat) :
    ∀ l : List (Nat × α), k ∉ l.map Prod.fst → l.lookup k = none
  | [], _ => rfl
  | (a, b) :: tl, h => by
    have h1 : k ≠ a := by
      intro hk
      exact h (by simp [hk])
    have h2 : k ∉ tl.map Prod.fst := by
      intro hk
      exact h (by simp [hk])
    have hb : (k == a) = false := beq_eq_false_iff_ne.mpr h1
    simp only [List.lookup, hb]
    exact lookup_eq_none_of_not_mem_keys k tl h2

/-- Entries parsed by the bonded-devices loop are as many as the loop indices. -/
theorem parseBondedEntries_length (bytes : List Nat) :
    ∀ (is : List Nat) (l : List BdAddrType),
      parseBondedEntries bytes is = .ok l → l.length = is.length
  | [], l, h => by
    simp only [parseBondedEntries] at h
    simp [← Except.ok.inj h]
  | i :: rest, l, h => by
    simp only [parseBondedEntries] at h
    cases he : parseBondedEntry bytes i with
    | error e => rw [he] at h; exact absurd h (by simp)
    | ok a =>
      rw [he] at h
      cases hr : parseBondedEntries bytes rest with
      | error e => rw [hr] at h; exact absurd h (by simp)
      | ok tl =>
        rw [hr] at h
        have := parseBondedEntries_length bytes rest tl hr
        simp [← Except.ok.inj h, this]

/-- C1: `DiscoverableParameters::copy_into_slice` with `local_name = None` returns the
computed `required_len` (13 for empty advertising data) but writes only the first 12
bytes of the payload: on a buffer initialized to 7s, the last byte of the claimed
13-byte payload still holds the initial 7, because the advertising-data length byte is
written at index 7, over the name-length byte, instead of at index 8.  The claim that
exactly `required_len` bytes are written fails for `local_name = None`. -/
theorem discoverable_serialize_none_name_underwrite :
    DiscoverableParameters.validate discoverableNoNameParams = .ok () ∧
    DiscoverableParameters.required_len discoverableNoNameParams = 13 ∧
    DiscoverableParameters.copy_into_slice discoverableNoNameParams
        (List.replicate 13 7) =
      some ([0, 0, 0, 0, 0, 0, 0, 0, 0, 0, 0, 0, 7], 13) :=
  ⟨rfl, rfl, rfl⟩

/-- C2: `add_devices_to_list` starts its write index at 0, so the first entry
overwrites the length-prefix byte and the payload is `7 * n + 1` bytes, not the
length-prefixed `2 + 7 * n` layout that the spec describes and that
`add_devices_to_resolving_list` (third conjunct) actually produces. -/
theorem add_devices_to_list_layout_bug :
    add_devices_to_list [BdAddrType.Public [1, 2, 3, 4, 5, 6]] .AppendWhitelist =
      some (GAP_ADD_DEVICES_TO_LIST, [0, 1, 2, 3, 4, 5, 6, 2]) ∧
    spec_add_devices_payload [BdAddrType.Public [1, 2, 3, 4, 5, 6]] .AppendWhitelist =
      [1, 0, 1, 2, 3, 4, 5, 6, 2] ∧
    add_devices_to_resolving_list [PeerAddrType.PublicIdentity [1, 2, 3, 4, 5, 6]]
        false =
      some (GAP_ADD_DEVICES_TO_RESOLVING_LIST, [1, 0, 1, 2, 3, 4, 5, 6, 0]) :=
  ⟨rfl, rfl, rfl⟩

/-- C3 counterexample: `to_conn_interval_value` does its arithmetic in wrapping u32,
so for a duration of 4294968 seconds (whose total milliseconds exceed 2^32) the source
function disagrees with the claimed formula `4 x total_ms / 5` cast to u16. -/
theorem to_conn_interval_value_wrap_cex :
    to_conn_interval_value ⟨4294968, 0⟩ = 563 ∧
    spec_conn_interval_slots ⟨4294968, 0⟩ = 52992 ∧
    to_conn_interval_value ⟨4294968, 0⟩ ≠ spec_conn_interval_slots ⟨4294968, 0⟩ := by
  decide

/-- C3 amended: whenever `4 x total_ms` fits in u32 (so no intermediate u32 arithmetic
wraps), `to_conn_interval_value` equals the truncated `4 x total_ms / 5` cast to u16;
and for every duration, `to_connection_length_value` equals
`1600 x whole_seconds + subsec_us / 625` cast to u16. -/
theorem duration_quantizations_amended (d : Duration) :
    (4 * total_milliseconds d < 2 ^ 32 →
      to_conn_interval_value d = spec_conn_interval_slots d) ∧
    to_connection_length_value d = spec_connection_length_slots d := by
  constructor
  · intro h
    have h4 : 4 * (1000 * d.secs + d.nanos / 1000000) < 2 ^ 32 := by
      simpa [total_milliseconds] using h
    simp only [to_conn_interval_value, spec_conn_interval_slots, total_milliseconds,
      Duration.subsec_millis]
    rw [Nat.mod_eq_of_lt (a := d.secs * 1000) (by omega),
      Nat.mod_eq_of_lt (a := d.secs * 1000 + d.nanos / 1000000) (by omega),
      Nat.mod_eq_of_lt (a := 4 * (d.secs * 1000 + d.nanos / 1000000)) (by omega)]
    have hc : d.secs * 1000 + d.nanos / 1000000 = 1000 * d.secs + d.nanos / 1000000 := by
      ring
    rw [hc]
  · have h1 : (2 : ℕ) ^ 16 ∣ 2 ^ 32 := pow_dvd_pow 2 (by norm_num)
    simp only [to_connection_length_value, spec_connection_length_slots,
      Duration.subsec_micros]
    rw [Nat.mod_mod_of_dvd _ h1]
    exact Nat.ModEq.add_right _
      (((Nat.mod_modEq _ _).of_dvd h1).trans
        (Nat.ModEq.mul_left 1600 ((Nat.mod_modEq _ _).of_dvd h1)))

/-- C3 witness: the spec's own scenarios — 1.25 s quantizes to 1000 connection-interval
slots and 20 ms to 32 advertising-interval slots — via the amended theorem. -/
theorem duration_quantizations_amended_witness :
    4 * total_milliseconds ⟨1, 250000000⟩ < 2 ^ 32 ∧
    to_conn_interval_value ⟨1, 250000000⟩ = spec_conn_interval_slots ⟨1, 250000000⟩ ∧
    to_conn_interval_value ⟨1, 250000000⟩ = 1000 ∧
    to_connection_length_value ⟨0, 20000000⟩ =
      spec_connection_length_slots ⟨0, 20000000⟩ ∧
    to_connection_length_value ⟨0, 20000000⟩ = 32 :=
  ⟨by decide, (duration_quantizations_amended ⟨1, 250000000⟩).1 (by decide), by decide,
    (duration_quantizations_amended ⟨0, 20000000⟩).2, by decide⟩

/-- C4: for any payload whose first byte maps to a non-success status,
`to_gap_resolve_private_address` returns that status with no address, independently of
everything after the status byte (so a 1-byte buffer decodes successfully); for a
success status it requires exactly 7 bytes and returns the following 6 as the address,
failing with the exact-length error otherwise. -/
theorem gap_resolve_private_address_status_gated (b : Nat) (rest : List Nat)
    (s : Status) (h : statusFromU8 b = some s) :
    (s ≠ .Success → to_gap_resolve_private_address (b :: rest) = .ok ⟨s, none⟩) ∧
    (s = .Success →
      to_gap_resolve_private_address (b :: rest) =
        if rest.length = 6 then .ok ⟨s, some (rest.take 6)⟩
        else .error (.BadLength (rest.length + 1) 7)) := by
  constructor
  · intro hs
    simp [to_gap_resolve_private_address, to_status, h, hs]
  · intro hs
    subst hs
    by_cases hl : rest.length = 6
    · simp [to_gap_resolve_private_address, to_status, h, hl]
    · have h7 : ¬ (b :: rest).length = 7 := by
        simp only [List.length_cons]
        omega
      simp [to_gap_resolve_private_address, to_status, h, h7]

/-- C4 witness: the 1-byte buffer whose status byte is 0x0C decodes successfully with
no address. -/
theorem gap_resolve_private_address_status_gated_witness :
    to_gap_resolve_private_address [12] = .ok ⟨.CommandDisallowed, none⟩ :=
  (gap_resolve_private_address_status_gated 12 [] .CommandDisallowed (by decide)).1
    (by decide)

/-- C5: on a success status, `to_gap_bonded_devices` reads the address count from
byte 1 and fails with `PartialBondedDeviceAddress` whenever the buffer length is not
exactly `2 + 7 x count`; conversely every successful decode has exactly that length
and carries that count. -/
theorem gap_bonded_devices_exact_length (b c : Nat) (rest : List Nat)
    (h : statusFromU8 b = some .Success) :
    ((b :: c :: rest).length ≠ 2 + 7 * c →
      to_gap_bonded_devices (b :: c :: rest) =
        .error (.Vendor .PartialBondedDeviceAddress)) ∧
    (∀ d, to_gap_bonded_devices (b :: c :: rest) = .ok d →
      (b :: c :: rest).length = 2 + 7 * c ∧ d.address_count = c) := by
  have h2 : ¬ rest.length + 1 + 1 < 2 := by omega
  constructor
  · intro hlen
    have hlen' : ¬ rest.length + 1 + 1 = 2 + 7 * c := by
      simpa using hlen
    simp [to_gap_bonded_devices, to_status, h, h2, hlen']
  · intro d hd
    by_cases hlen : (b :: c :: rest).length = 2 + 7 * c
    · refine ⟨hlen, ?_⟩
      have hlen2 : rest.length + 1 + 1 = 2 + 7 * c := by simpa using hlen
      have heval : to_gap_bonded_devices (b :: c :: rest) =
          match parseBondedEntries (b :: c :: rest)
              (List.range (min c MAX_ADDRESSES)) with
          | .error e => .error e
          | .ok parsed =>
            .ok ⟨.Success, c,
              parsed ++ List.replicate (MAX_ADDRESSES - min c MAX_ADDRESSES) zeroAddr⟩ := by
        simp [to_gap_bonded_devices, to_status, h, h2, hlen2]
      rw [heval] at hd
      cases hp : parseBondedEntries (b :: c :: rest)
          (List.range (min c MAX_ADDRESSES)) with
      | error e => rw [hp] at hd; exact absurd hd (by simp)
      | ok parsed =>
        rw [hp] at hd
        simp [← Except.ok.inj hd]
    · have hlen' : ¬ rest.length + 1 + 1 = 2 + 7 * c := by
        simpa using hlen
      rw [show to_gap_bonded_devices (b :: c :: rest) =
          .error (.Vendor .PartialBondedDeviceAddress) from by
        simp [to_gap_bonded_devices, to_status, h, h2, hlen']] at hd
      exact absurd hd (by simp)

/-- C5 witness: the spec's scenario — a success response declaring 2 addresses but 3
bytes short of the required 16 — fails with the malformed-payload error. -/
theorem gap_bonded_devices_exact_length_witness :
    to_gap_bonded_devices (0 :: 2 :: List.replicate 11 0) =
      .error (.Vendor .PartialBondedDeviceAddress) :=
  (gap_bonded_devices_exact_length 0 2 (List.replicate 11 0) (by decide)).1 (by decide)

/-- C6: `VendorReturnParameters::new` fails with `BadLength(actual, 3)` on every
buffer shorter than 3 bytes, and with `UnknownOpcode` carrying the exact LE u16 from
bytes 1..3 on every opcode outside the closed dispatch table. -/
theorem vendor_return_parameters_new_closed_table (bytes : List Nat) :
    (bytes.length < 3 →
      VendorReturnParameters.new bytes = some (.error (.BadLength bytes.length 3))) ∧
    (3 ≤ bytes.length → readU16 bytes 1 ∉ knownOpcodes →
      VendorReturnParameters.new bytes =
        some (.error (.UnknownOpcode (readU16 bytes 1)))) := by
  constructor
  · intro h
    simp [VendorReturnParameters.new, h]
  · intro h hop
    have hlk : opcodeTable.lookup (readU16 bytes 1) = none :=
      lookup_eq_none_of_not_mem_keys (readU16 bytes 1) opcodeTable hop
    simp [VendorReturnParameters.new, Nat.not_lt.mpr h, hlk]

/-- C6 witness: a 1-byte buffer fails with `BadLength(1, 3)`, and a 3-byte buffer
carrying the unassigned opcode 0xFFFF fails with `UnknownOpcode(0xFFFF)`. -/
theorem vendor_return_parameters_new_closed_table_witness :
    VendorReturnParameters.new [0] = some (.error (.BadLength 1 3)) ∧
    VendorReturnParameters.new [0, 255, 255] =
      some (.error (.UnknownOpcode 65535)) :=
  ⟨(vendor_return_parameters_new_closed_table [0]).1 (by decide),
   (vendor_return_parameters_new_closed_table [0, 255, 255]).2 (by decide) (by decide)⟩

/-- C7: `pass_key_response` and `AuthenticationRequirements::validate` accept every
pin up to 999999 and reject every larger pin with `BadFixedPin` echoing the pin
verbatim (for `validate`, under the checks that precede and follow the pin check). -/
theorem fixed_pin_range_checked (ch pin : Nat) (r : AuthenticationRequirements)
    (hpin : r.fixed_pin = .Fixed pin)
    (hkeys : r.encryption_key_size_range.1 ≤ r.encryption_key_size_range.2)
    (haddr : r.identity_address_type = .Public ∨ r.identity_address_type = .Random) :
    (pin ≤ 999999 →
      pass_key_response ch pin =
        .ok (GAP_PASS_KEY_RESPONSE, u16le (ch % 2 ^ 16) ++ u32le (pin % 2 ^ 32)) ∧
      r.validate = .ok ()) ∧
    (pin > 999999 →
      pass_key_response ch pin = .error (.BadFixedPin pin) ∧
      r.validate = .error (.BadFixedPin pin)) := by
  have hk : ¬ r.encryption_key_size_range.1 > r.encryption_key_size_range.2 :=
    Nat.not_lt.mpr hkeys
  constructor
  · intro hle
    have hgt : ¬ pin > 999999 := Nat.not_lt.mpr hle
    constructor
    · simp [pass_key_response, hgt]
    · rcases haddr with ha | ha <;>
        simp [AuthenticationRequirements.validate,
          AuthenticationRequirements.validate_addr, hk, hpin, hgt, ha]
  · intro hgt
    constructor
    · simp [pass_key_response, hgt]
    · simp [AuthenticationRequirements.validate, hk, hpin, hgt]

/-- C7 witness: the boundary pin 999999 is accepted and 1000000 is rejected with the
pin echoed, both by `pass_key_response` and by `validate`. -/
theorem fixed_pin_range_checked_witness :
    (pass_key_response 1 999999 =
        .ok (GAP_PASS_KEY_RESPONSE, u16le (1 % 2 ^ 16) ++ u32le (999999 % 2 ^ 32)) ∧
      authReqPinMax.validate = .ok ()) ∧
    (pass_key_response 1 1000000 = .error (.BadFixedPin 1000000) ∧
      authReqPinOver.validate = .error (.BadFixedPin 1000000)) :=
  ⟨(fixed_pin_range_checked 1 999999 authReqPinMax rfl (by decide) (Or.inl rfl)).1
      (by decide),
   (fixed_pin_range_checked 1 1000000 authReqPinOver rfl (by decide) (Or.inl rfl)).2
      (by decide)⟩

/-- C8: for every discoverable-parameters value with a disallowed directed-connectable
advertising type, `set_discoverable` and `set_limited_discoverable` fail with
`BadAdvertisingType` carrying that exact type — the first check in the fixed order,
regardless of any other field (including inverted interval pairs) — and perform no
`controller_write` (the error result carries an empty write list by the modelled
validate-then-write contract). -/
theorem set_discoverable_rejects_directed_type (p : DiscoverableParameters)
    (h : p.advertising_type = .ConnectableDirectedHighDutyCycle ∨
      p.advertising_type = .ConnectableDirectedLowDutyCycle) :
    set_discoverable p = some (.error (.BadAdvertisingType p.advertising_type)) ∧
    set_limited_discoverable p =
      some (.error (.BadAdvertisingType p.advertising_type)) := by
  rcases h with h | h <;>
    simp [set_discoverable, set_limited_discoverable, run_discoverable_command,
      DiscoverableParameters.validate, h]

/-- C8 witness: concrete parameters with the high-duty-cycle directed type and both
interval pairs inverted still report only `BadAdvertisingType`. -/
theorem set_discoverable_rejects_directed_type_witness :
    set_discoverable directedBadParams =
      some (.error (.BadAdvertisingType directedBadParams.advertising_type)) ∧
    set_limited_discoverable directedBadParams =
      some (.error (.BadAdvertisingType directedBadParams.advertising_type)) :=
  set_discoverable_rejects_directed_type directedBadParams (Or.inl rfl)

set_option maxRecDepth 10000 in
/-- C9 counterexample: a 254-byte success payload declaring 36 addresses decodes
without error into a `GapBondedDevices` whose `address_count` is 36, beyond the
35-entry buffer, and `bonded_addresses` then panics (modelled as `none`) — so the
claim as stated over all input byte strings is false. -/
theorem bonded_devices_count_overflow_cex :
    to_gap_bonded_devices (0 :: 36 :: List.replicate 252 0) =
      .ok ⟨.Success, 36, List.replicate 35 zeroAddr⟩ ∧
    GapBondedDevices.bonded_addresses ⟨.Success, 36, List.replicate 35 zeroAddr⟩ =
      none :=
  ⟨rfl, rfl⟩

/-- C9 amended: for every input of at most 253 bytes (any buffer within the 255-byte
HCI packet budget), a successful decode has `address_count` at most 35 and
`bonded_addresses` slices the buffer without panicking. -/
theorem bonded_devices_count_bounded_amended (bytes : List Nat)
    (hlen : bytes.length ≤ 253) :
    ∀ d, to_gap_bonded_devices bytes = .ok d →
      d.address_count ≤ MAX_ADDRESSES ∧
      d.bonded_addresses = some (d.address_buffer.take d.address_count) := by
  intro d hd
  simp only [to_gap_bonded_devices] at hd
  cases hs : to_status bytes with
  | error e => simp only [hs] at hd; exact absurd hd (by simp)
  | ok s =>
    cases s with
    | CommandDisallowed =>
      simp only [hs] at hd
      rw [← Except.ok.inj hd]
      exact ⟨by simp [MAX_ADDRESSES], by simp [GapBondedDevices.bonded_addresses]⟩
    | Success =>
      simp only [hs] at hd
      by_cases h2 : bytes.length < 2
      · rw [if_pos h2] at hd; exact absurd hd (by simp)
      · rw [if_neg h2] at hd
        by_cases hexact : bytes.length = 2 + 7 * bytes.getD 1 0
        · rw [if_neg (not_not_intro hexact)] at hd
          cases hp : parseBondedEntries bytes
              (List.range (min (bytes.getD 1 0) MAX_ADDRESSES)) with
          | error e => rw [hp] at hd; exact absurd hd (by simp)
          | ok parsed =>
            rw [hp] at hd
            have hc : bytes.getD 1 0 ≤ MAX_ADDRESSES := by
              simp only [MAX_ADDRESSES]
              omega
            have hplen : parsed.length = min (bytes.getD 1 0) MAX_ADDRESSES := by
              simpa using parseBondedEntries_length bytes _ parsed hp
            have hbuf : (parsed ++ List.replicate
                (MAX_ADDRESSES - min (bytes.getD 1 0) MAX_ADDRESSES) zeroAddr).length =
                MAX_ADDRESSES := by
              simp only [List.length_append, List.length_replicate, hplen]
              omega
            rw [← Except.ok.inj hd]
            refine ⟨hc, ?_⟩
            simp only [GapBondedDevices.bonded_addresses]
            rw [hbuf, if_pos hc]
        · rw [if_pos hexact] at hd
          exact absurd hd (by simp)

/-- C9 witness: a 1-byte non-success payload decodes to a value with count 0, whose
address slice is safely empty, via the amended theorem. -/
theorem bonded_devices_count_bounded_amended_witness :
    (⟨.CommandDisallowed, 0, List.replicate MAX_ADDRESSES zeroAddr⟩ :
        GapBondedDevices).address_count ≤ MAX_ADDRESSES ∧
    GapBondedDevices.bonded_addresses
        ⟨.CommandDisallowed, 0, List.replicate MAX_ADDRESSES zeroAddr⟩ =
      some ((List.replicate MAX_ADDRESSES zeroAddr).take 0) :=
  bonded_devices_count_bounded_amended [12] (by decide)
    ⟨.CommandDisallowed, 0, List.replicate MAX_ADDRESSES zeroAddr⟩ rfl

set_option maxRecDepth 10000 in
/-- C10 counterexample: a 253-byte success payload declaring a 250-byte value passes
the exact-length check and then panics (modelled as `none`) when copying into the
249-byte buffer — so the claim as stated over all input byte strings is false. -/
theorem gatt_handle_value_overflow_cex :
    to_gatt_handle_value (0 :: 250 :: 0 :: List.replicate 250 0) = none := rfl

/-- C10 amended: for every input of at most 252 bytes (any payload the 255-byte HCI
packet budget can deliver after the 3-byte return-parameters header),
`to_gatt_handle_value` never panics, and a successful decode has `value_len` at most
249 with the `value` accessor slicing safely. -/
theorem gatt_handle_value_bounded_amended (bytes : List Nat)
    (hlen : bytes.length ≤ 252) :
    to_gatt_handle_value bytes ≠ none ∧
    ∀ v, to_gatt_handle_value bytes = some (.ok v) →
      v.value_len ≤ MAX_VALUE_BUF ∧ v.value = some (v.value_buf.take v.value_len) := by
  constructor
  · simp only [to_gatt_handle_value]
    by_cases h3 : bytes.length < 3
    · simp [h3]
    · simp only [h3]
      cases hs : to_status bytes with
      | error e => simp
      | ok s =>
        by_cases hexact : bytes.length = 3 + readU16 bytes 1
        · have hv : readU16 bytes 1 ≤ MAX_VALUE_BUF := by
            simp only [MAX_VALUE_BUF]
            omega
          simp [hexact, hv]
        · simp [hexact]
  · intro v hv
    simp only [to_gatt_handle_value] at hv
    by_cases h3 : bytes.length < 3
    · simp [h3] at hv
    · simp only [h3] at hv
      cases hs : to_status bytes with
      | error e => simp [hs] at hv
      | ok s =>
        simp only [hs] at hv
        by_cases hexact : bytes.length = 3 + readU16 bytes 1
        · by_cases hmax : readU16 bytes 1 ≤ MAX_VALUE_BUF
          · simp [hexact, hmax] at hv
            have hbuf : v.value_buf.length = MAX_VALUE_BUF := by
              rw [← hv]
              simp [List.length_take, List.length_drop]
              omega
            have hvl : v.value_len = readU16 bytes 1 := by rw [← hv]
            refine ⟨by omega, ?_⟩
            simp [GattHandleValue.value, hbuf, hvl, hmax]
          · simp [hexact, hmax] at hv
        · simp [hexact] at hv

/-- C10 witness: a minimal 3-byte success payload with a zero-length value decodes
without panic and its value accessor returns the empty slice, via the amended
theorem. -/
theorem gatt_handle_value_bounded_amended_witness :
    to_gatt_handle_value [0, 0, 0] ≠ none ∧
    ((⟨.Success, List.replicate 249 0, 0⟩ : GattHandleValue).value_len ≤
        MAX_VALUE_BUF ∧
      GattHandleValue.value ⟨.Success, List.replicate 249 0, 0⟩ =
        some ((List.replicate 249 0).take 0)) :=
  ⟨(gatt_handle_value_bounded_amended [0, 0, 0] (by decide)).1,
   (gatt_handle_value_bounded_amended [0, 0, 0] (by decide)).2
      ⟨.Success, List.replicate 249 0, 0⟩ rfl⟩

end WbHci
